import Mathlib

/-!
Shallow embedding of the pricing and order-lifecycle core of the
student-services platform (files `app/services/pricing.py`,
`app/services/payment.py`, `app/models/models.py`, `app/api/main.py`,
`app/bot/bot.py`, `config/config.py`).

Python floats are modelled as rationals; dict lookups with a default
(`dict.get(k, d)`) as association-list lookups with a default; SQLAlchemy
`@validates` hooks (which raise `ValueError` on an invalid attribute write)
as `Except`-returning setters.
-/

namespace StudentServices

/-! ## Pricing tables (`config/config.py` defaults and the literal tables in
`PricingService.__init__`, app/services/pricing.py lines 7-28) -/

/-- Association-list lookup with a default value, mirroring the Python call
`dict.get(key, default)`. -/
def lookupD : List (String × ℚ) → String → ℚ → ℚ
  | [], _, d => d
  | (k, v) :: t, s, d => if s = k then v else lookupD t s d

/-- Table `self.base_prices` (pricing.py lines 7-14): assignment, project and
presentation come from settings (20.0 / 50.0 / 30.0 in config.py lines 62-64), the rest are
literals. -/
def basePrices : List (String × ℚ) :=
  [("assignment", 20), ("project", 50), ("presentation", 30),
   ("redesign", 25), ("summary", 15), ("express", 50)]

/-- Table `self.academic_multipliers` (pricing.py lines 16-21). -/
def academicMultipliers : List (String × ℚ) :=
  [("high_school", 1), ("bachelor", 6/5), ("masters", 3/2), ("phd", 2)]

/-- Table `self.currency_rates` (pricing.py lines 23-28). -/
def currencyRates : List (String × ℚ) :=
  [("USD", 1), ("JOD", 71/100), ("AED", 367/100), ("SAR", 375/100)]

/-- Keys of the base-price table: the known service types. -/
def serviceTypeKeys : List String := basePrices.map Prod.fst

/-- Keys of the academic-multiplier table: the known academic levels. -/
def academicLevelKeys : List String := academicMultipliers.map Prod.fst

/-- Keys of the currency-rate table: the known currencies. -/
def currencyKeys : List String := currencyRates.map Prod.fst

/-- Base price looked up as in pricing.py line 40:
`self.base_prices.get(service_type, 30)`. -/
def basePriceOf (service_type : String) : ℚ := lookupD basePrices service_type 30

/-- Academic multiplier looked up as in pricing.py line 55:
`self.academic_multipliers.get(academic_level, 1.0)`. -/
def academicMultiplierOf (academic_level : String) : ℚ :=
  lookupD academicMultipliers academic_level 1

/-- Currency rate looked up as in pricing.py line 62:
`self.currency_rates.get(currency, 1.0)`. -/
def currencyRateOf (currency : String) : ℚ := lookupD currencyRates currency 1

/-- The urgency step function of pricing.py lines 43-52, with
`settings.urgency_multiplier_24h = 2.0` (config.py line 70). -/
def urgencyMultiplier (days_until_deadline : ℤ) : ℚ :=
  if days_until_deadline ≤ 1 then 2
  else if days_until_deadline ≤ 2 then 3/2
  else if days_until_deadline ≤ 3 then 13/10
  else if days_until_deadline ≤ 5 then 11/10
  else 1

/-- Rounding to two decimal places, the Python call `round(x, 2)`, on the
exact rational value. -/
def round2 (x : ℚ) : ℚ := (round (x * 100) : ℤ) / 100

/-- The dict returned by `PricingService.calculate_price`
(pricing.py lines 67-74). -/
structure PriceBreakdown where
  base_price : ℚ
  urgency_multiplier : ℚ
  academic_multiplier : ℚ
  total_price : ℚ
  total_price_usd : ℚ
  currency : String
deriving DecidableEq, Repr

/-- Function `PricingService.calculate_price` (pricing.py lines 30-74). -/
def calculate_price (service_type academic_level : String)
    (days_until_deadline : ℤ) (currency : String) : PriceBreakdown :=
  let base_price := basePriceOf service_type
  let urgency_multiplier := urgencyMultiplier days_until_deadline
  let academic_multiplier := academicMultiplierOf academic_level
  let total_price_usd := base_price * urgency_multiplier * academic_multiplier
  let total_price :=
    if currency ≠ "USD" then total_price_usd * currencyRateOf currency
    else total_price_usd
  { base_price := round2 base_price
    urgency_multiplier := urgency_multiplier
    academic_multiplier := academic_multiplier
    total_price := round2 total_price
    total_price_usd := round2 total_price_usd
    currency := currency }

/-! ## The Order model (`app/models/models.py` lines 95-218) -/

/-- Valid order statuses (models.py line 187). -/
def validOrderStatuses : List String :=
  ["pending", "confirmed", "in_progress", "delivered", "completed", "cancelled"]

/-- Valid order payment statuses (models.py line 195). -/
def validPaymentStatuses : List String :=
  ["pending", "paid", "failed", "refunded"]

/-- Valid statuses of a Payment record (models.py line 283). -/
def validPaymentRecordStatuses : List String :=
  ["pending", "succeeded", "failed", "cancelled", "refunded"]

/-- The fields of the `Order` row relevant to pricing and lifecycle. -/
structure Order where
  order_number : String
  service_type : String
  academic_level : String
  base_price : ℚ
  urgency_multiplier : ℚ
  academic_multiplier : ℚ
  total_amount : ℚ
  currency : String
  payment_status : String
  status : String
deriving DecidableEq, Repr

/-- Validator `Order.validate_status` (models.py lines 184-190): raises
`ValueError` unless the value is a valid order status. -/
def validate_status (status : String) : Except String String :=
  if status ∈ validOrderStatuses then .ok status
  else .error "Invalid status"

/-- Validator `Order.validate_payment_status` (models.py lines 192-198). -/
def validate_payment_status (payment_status : String) : Except String String :=
  if payment_status ∈ validPaymentStatuses then .ok payment_status
  else .error "Invalid payment status"

/-- An ORM write of the status attribute: the validates hook on status runs
first; on failure the attribute is left unchanged and `ValueError` propagates. -/
def setStatus (o : Order) (v : String) : Except String Order :=
  match validate_status v with
  | .ok s => .ok { o with status := s }
  | .error e => .error e

/-- An ORM write of the payment-status attribute through its validates
hook. -/
def setPaymentStatus (o : Order) (v : String) : Except String Order :=
  match validate_payment_status v with
  | .ok s => .ok { o with payment_status := s }
  | .error e => .error e

/-- The admin endpoint `update_order_status` (app/api/main.py lines 391-418):
it assigns `order.status = status` directly from the request form value and
commits; any exception (here: the `ValueError` of the validator) is caught, the
transaction rolled back (order unchanged) and an error returned. An `.ok`
result is the committed order, an `.error` result means the stored order is
the unchanged input. -/
def update_order_status (o : Order) (status : String) : Except String Order :=
  setStatus o status

/-! ## Payment service (`app/services/payment.py`) -/

/-- A `Payment` row (models.py lines 224-294), reduced to the fields the
lifecycle invariants mention. The repository has no code path that constructs
one (`PaymentService` only talks to the gateway). -/
structure PaymentRec where
  payment_id : String
  amount : ℚ
  method : String
  status : String
deriving DecidableEq, Repr

/-- Function `PaymentService.check_payment_status_by_order` (payment.py lines
127-160), with the payment-status string of the gateway session as an input. On a `"paid"`
session it assigns `order.payment_status = "confirmed"` then
`order.status = "paid"` and commits; the `except` branch catches any exception
(in particular a `ValueError` from the validators), returns `"error"`, and the
uncommitted order stays as it was. The result is the returned string paired
with the stored order. -/
def check_payment_status_by_order (o : Order) (session_payment_status : String) :
    String × Order :=
  if session_payment_status = "paid" then
    match setPaymentStatus o "confirmed" with
    | .ok o1 =>
      match setStatus o1 "paid" with
      | .ok o2 => ("succeeded", o2)
      | .error _ => ("error", o)
    | .error _ => ("error", o)
  else if session_payment_status = "unpaid" then ("pending", o)
  else ("failed", o)

/-! ## Order creation (`app/bot/bot.py`, `handle_special_notes`,
lines 724-760) -/

/-- The Order construction in bot.py lines 741-758: from the pricing dict the
`base_price`, `urgency_multiplier` and `total_price` are written, while the
`academic_multiplier` keyword is not passed, so that column keeps its model
default `1.0` (models.py line 125); status pair starts as
`pending`/`pending`. -/
def createOrder (order_number service_type academic_level : String)
    (pricing : PriceBreakdown) (currency : String) : Order :=
  { order_number := order_number
    service_type := service_type
    academic_level := academic_level
    base_price := pricing.base_price
    urgency_multiplier := pricing.urgency_multiplier
    academic_multiplier := 1
    total_amount := pricing.total_price
    currency := currency
    payment_status := "pending"
    status := "pending" }

/-! ## Reachable order states

The only writes to the `status` and `payment_status` fields of an order in the
repository are: the construction above (bot.py lines 741-758), the admin
endpoint `update_order_status` (main.py line 406) and the two assignments in
`check_payment_status_by_order` (payment.py lines 148-149). No code path
constructs a `Payment` row. The step relation below covers exactly those
operations on one order together with its payment records. -/

/-- Persisted state of one order: the row plus its associated `Payment` rows. -/
structure SysState where
  order : Order
  payments : List PaymentRec
deriving DecidableEq, Repr

/-- One committed operation of the repository on the state of an order. -/
inductive Step : SysState → SysState → Prop where
  /-- Endpoint `update_order_status` commits a validated status write. -/
  | apiUpdate (s : SysState) (v : String) (o' : Order)
      (h : update_order_status s.order v = .ok o') :
      Step s ⟨o', s.payments⟩
  /-- Endpoint `update_order_status` hits an exception and rolls back. -/
  | apiUpdateFail (s : SysState) (v : String) (e : String)
      (h : update_order_status s.order v = .error e) : Step s s
  /-- Function `check_payment_status_by_order` runs against a gateway session
  in any state; the stored order afterwards is the second component. -/
  | checkPayment (s : SysState) (g : String) :
      Step s ⟨(check_payment_status_by_order s.order g).2, s.payments⟩

/-- Order states reachable from creation through the operations of the
repository. -/
inductive Reachable : SysState → Prop where
  | init (n st al : String) (pricing : PriceBreakdown) (c : String) :
      Reachable ⟨createOrder n st al pricing c, []⟩
  | step (s s' : SysState) : Reachable s → Step s s' → Reachable s'

/-! ## Order-number allocation (`app/bot/bot.py` lines 737-739)

An order count is read with a plain query, and the order number is formatted
from date part and count + 1, zero-padded to width 4 — a non-atomic read of
the row count. The model below runs two creation sessions against a shared count,
each session first reading the count (and deriving its order number from it)
and later committing its insert. -/

/-- Python format 04d: decimal, left-padded with zeros to width 4. -/
def pad4 (n : Nat) : String :=
  let s := toString n
  if s.length < 4 then String.mk (List.replicate (4 - s.length) '0') ++ s else s

/-- The order number computed in bot.py line 739 from the date part and the
row count read in line 738. -/
def genOrderNumber (datePart : String) (orderCount : Nat) : String :=
  "SS" ++ datePart ++ pad4 (orderCount + 1)

/-- An event of one of two concurrent creation sessions (`true`/`false`):
reading the row count, or committing the insert. -/
inductive AllocEv where
  | read (pid : Bool)
  | commit (pid : Bool)
deriving DecidableEq, Repr

/-- Shared state of the two sessions: committed row count and, per session,
the computed order number (when that session has read already). -/
structure AllocState where
  count : Nat
  numA : Option String
  numB : Option String
deriving DecidableEq, Repr

/-- Effect of one event on the shared state. -/
def allocStep (datePart : String) (s : AllocState) : AllocEv → AllocState
  | .read true => { s with numA := some (genOrderNumber datePart s.count) }
  | .read false => { s with numB := some (genOrderNumber datePart s.count) }
  | .commit _ => { s with count := s.count + 1 }

/-- Run a schedule of events. -/
def runAlloc (datePart : String) (evs : List AllocEv) (s : AllocState) :
    AllocState :=
  evs.foldl (allocStep datePart) s

/-- Both sessions read the count before either commits. -/
def racingSchedule : List AllocEv :=
  [.read true, .read false, .commit true, .commit false]

/-- The two sessions run one after the other. -/
def sequentialSchedule : List AllocEv :=
  [.read true, .commit true, .read false, .commit false]

/-! ## Concrete instances and invariant predicates -/

/-- A concrete order as the bot creates it, from the quote for a bachelor
assignment due in one day, priced in USD. -/
def pendingOrder : Order :=
  createOrder "SS202401010001" "assignment" "bachelor"
    (calculate_price "assignment" "bachelor" 1 "USD") "USD"

/-- A concrete completed, paid order; the model (like the repository) has no
refund records at all. -/
def paidCompletedOrder : Order :=
  { pendingOrder with payment_status := "paid", status := "completed" }

/-- Cross-machine invariant: an order marked paid has an associated succeeded
payment record. -/
def paidImpliesSucceededPayment (s : SysState) : Prop :=
  s.order.payment_status = "paid" →
    ∃ p ∈ s.payments, p.status = "succeeded"

/-- The status pair of an order lies in the closed valid sets. -/
def statusPairValid (s : SysState) : Prop :=
  s.order.status ∈ validOrderStatuses ∧
  s.order.payment_status ∈ validPaymentStatuses

/-! ## Helper lemmas -/

/-- A lookup whose key is absent from the table returns the default. -/
theorem lookupD_of_not_mem (t : List (String × ℚ)) (s : String) (d : ℚ)
    (h : s ∉ t.map Prod.fst) : lookupD t s d = d := by
  induction t with
  | nil => rfl
  | cons p rest ih =>
    obtain ⟨k, v⟩ := p
    simp only [List.map_cons, List.mem_cons, not_or] at h
    simp only [lookupD, if_neg h.1]
    exact ih h.2

/-- A successful status write through the validator is exactly the record
update with a valid value. -/
theorem update_order_status_ok {o : Order} {v : String} {o' : Order}
    (h : update_order_status o v = .ok o') :
    o' = { o with status := v } ∧ v ∈ validOrderStatuses := by
  unfold update_order_status setStatus validate_status at h
  by_cases hv : v ∈ validOrderStatuses
  · rw [if_pos hv] at h
    simp only [Except.ok.injEq] at h
    exact ⟨h.symm, hv⟩
  · rw [if_neg hv] at h
    simp at h

/-- The stored order after a payment-status check is always the input order:
on a paid session the invalid assignment raises and nothing is committed, on
any other session nothing is written. -/
theorem check_payment_snd (o : Order) (g : String) :
    (check_payment_status_by_order o g).2 = o := by
  by_cases h1 : g = "paid"
  · subst h1
    simp [check_payment_status_by_order, setPaymentStatus,
      validate_payment_status, validPaymentStatuses]
  · by_cases h2 : g = "unpaid" <;>
      simp [check_payment_status_by_order, h1, h2]

end StudentServices

namespace StudentServices

/-! ## Claim C1 -/

/-- Claim C1, counterexample: the requested transition pending to in_progress
is not in the lifecycle adjacency list, yet `update_order_status` succeeds and
changes the status, refuting that only adjacency-listed transitions succeed. -/
theorem claim_C1_counterexample :
    pendingOrder.status = "pending" ∧
    update_order_status pendingOrder "in_progress" =
      .ok { pendingOrder with status := "in_progress" } :=
  ⟨rfl, by simp [update_order_status, setStatus, validate_status,
    validOrderStatuses]⟩

/-- Claim C1 as amended: `update_order_status` succeeds for every requested
new status in the closed valid set, regardless of the current status; no
lifecycle adjacency is enforced (only the membership validator runs). -/
theorem claim_C1 :
    ∀ (o : Order) (v : String), v ∈ validOrderStatuses →
      update_order_status o v = .ok { o with status := v } := by
  intro o v hv
  simp [update_order_status, setStatus, validate_status, if_pos hv]

/-- Witness for claim C1: a concrete valid status value is accepted. -/
theorem claim_C1_witness :
    "confirmed" ∈ validOrderStatuses ∧
    update_order_status pendingOrder "confirmed" =
      .ok { pendingOrder with status := "confirmed" } :=
  ⟨by decide, claim_C1 pendingOrder "confirmed" (by decide)⟩

/-! ## Claim C2 -/

/-- Claim C2: for every valid input tuple, the total price of the quote equals
the base price times academic multiplier times urgency multiplier times the
configured exchange rate, rounded to two decimals only at the conversion
point; and the concrete quote for a bachelor assignment due in one day in USD
is base 20, academic multiplier 1.2, urgency multiplier 2.0, total 48. -/
theorem claim_C2 :
    ∀ (s a : String) (d : ℤ) (c : String),
      s ∈ serviceTypeKeys → a ∈ academicLevelKeys → 1 ≤ d → c ∈ currencyKeys →
      (calculate_price s a d c).total_price =
        round2 (basePriceOf s * academicMultiplierOf a * urgencyMultiplier d *
          currencyRateOf c) ∧
      calculate_price "assignment" "bachelor" 1 "USD" =
        ⟨20, 2, 6/5, 48, 48, "USD"⟩ := by
  intro s a d c _ _ _ hc
  constructor
  · simp only [currencyKeys, currencyRates, List.map_cons, List.map_nil,
      List.mem_cons, List.not_mem_nil, or_false] at hc
    rcases hc with rfl | rfl | rfl | rfl <;>
      simp [calculate_price, currencyRateOf, lookupD, currencyRates] <;>
      · congr 1; ring
  · simp [calculate_price, basePriceOf, academicMultiplierOf, currencyRateOf,
      lookupD, basePrices, academicMultipliers, currencyRates,
      urgencyMultiplier, round2]
    norm_num

/-- Witness for claim C2: the hypotheses hold at the concrete input tuple for
a bachelor assignment due in one day in USD. -/
theorem claim_C2_witness :
    ("assignment" ∈ serviceTypeKeys ∧ "bachelor" ∈ academicLevelKeys ∧
      (1:ℤ) ≤ 1 ∧ "USD" ∈ currencyKeys) ∧
    (calculate_price "assignment" "bachelor" 1 "USD").total_price =
      round2 (basePriceOf "assignment" * academicMultiplierOf "bachelor" *
        urgencyMultiplier 1 * currencyRateOf "USD") :=
  ⟨⟨by decide, by decide, by decide, by decide⟩,
   (claim_C2 "assignment" "bachelor" 1 "USD"
     (by decide) (by decide) (by decide) (by decide)).1⟩

/-! ## Claim C3 -/

/-- Claim C3, counterexample: a paid, completed order with no refund record is
cancelled successfully by `update_order_status`, refuting that cancelling a
paid order without a refund fails with CancelRequiresRefund. -/
theorem claim_C3_counterexample :
    paidCompletedOrder.payment_status = "paid" ∧
    paidCompletedOrder.status = "completed" ∧
    update_order_status paidCompletedOrder "cancelled" =
      .ok { paidCompletedOrder with status := "cancelled" } :=
  ⟨rfl, rfl, by simp [update_order_status, setStatus, validate_status,
    validOrderStatuses]⟩

/-- Claim C3 as amended: the transition to cancelled succeeds for every order,
regardless of its payment status and with no refund record required — the code
has no CancelRequiresRefund check, so a paid order can reach the cancelled
status with no recorded refund. -/
theorem claim_C3 :
    ∀ o : Order, update_order_status o "cancelled" =
      .ok { o with status := "cancelled" } := by
  intro o
  simp [update_order_status, setStatus, validate_status, validOrderStatuses]

/-- Witness for claim C3: the amended statement applied to the concrete paid
completed order. -/
theorem claim_C3_witness :
    update_order_status paidCompletedOrder "cancelled" =
      .ok { paidCompletedOrder with status := "cancelled" } :=
  claim_C3 paidCompletedOrder

/-! ## Claim C4 -/

/-- Claim C4, counterexample: quotes for an unknown service type, an unknown
academic level and an unknown currency are returned from silently defaulted
values (base 30, multiplier 1, identity rate) instead of failing. -/
theorem claim_C4_counterexample :
    (calculate_price "thesis" "bachelor" 1 "USD").base_price = 30 ∧
    (calculate_price "thesis" "bachelor" 1 "USD").total_price = 72 ∧
    (calculate_price "assignment" "doctorate" 1 "USD").academic_multiplier = 1 ∧
    (calculate_price "assignment" "bachelor" 1 "EUR").total_price = 48 := by
  refine ⟨?_, ?_, ?_, ?_⟩ <;>
    · simp [calculate_price, basePriceOf, academicMultiplierOf, currencyRateOf,
        lookupD, basePrices, academicMultipliers, currencyRates,
        urgencyMultiplier, round2]
      try norm_num

/-- Claim C4 as amended: for an unknown service type the quote silently uses
base price 30, for an unknown academic level multiplier 1, and for an unknown
currency the identity rate (total equals the USD total); no configuration
error is ever surfaced. -/
theorem claim_C4 :
    (∀ (s a : String) (d : ℤ) (c : String), s ∉ serviceTypeKeys →
      (calculate_price s a d c).base_price = 30) ∧
    (∀ (s a : String) (d : ℤ) (c : String), a ∉ academicLevelKeys →
      (calculate_price s a d c).academic_multiplier = 1) ∧
    (∀ (s a : String) (d : ℤ) (c : String), c ∉ currencyKeys →
      (calculate_price s a d c).total_price =
        (calculate_price s a d c).total_price_usd) := by
  refine ⟨?_, ?_, ?_⟩
  · intro s a d c hs
    simp [calculate_price, basePriceOf, lookupD_of_not_mem _ _ _ hs, round2]
    norm_num
  · intro s a d c ha
    simp [calculate_price, academicMultiplierOf, lookupD_of_not_mem _ _ _ ha]
  · intro s a d c hc
    have husd : c ≠ "USD" := by
      intro h; exact hc (by rw [h]; decide)
    simp [calculate_price, currencyRateOf, lookupD_of_not_mem _ _ _ hc, husd]

/-- Witness for claim C4: concrete unknown service type, academic level and
currency each take the silent default. -/
theorem claim_C4_witness :
    ("thesis" ∉ serviceTypeKeys ∧
      (calculate_price "thesis" "bachelor" 2 "USD").base_price = 30) ∧
    ("doctorate" ∉ academicLevelKeys ∧
      (calculate_price "project" "doctorate" 2 "USD").academic_multiplier = 1) ∧
    ("EUR" ∉ currencyKeys ∧
      (calculate_price "project" "bachelor" 2 "EUR").total_price =
        (calculate_price "project" "bachelor" 2 "EUR").total_price_usd) :=
  ⟨⟨by decide, claim_C4.1 "thesis" "bachelor" 2 "USD" (by decide)⟩,
   ⟨by decide, claim_C4.2.1 "project" "doctorate" 2 "USD" (by decide)⟩,
   ⟨by decide, claim_C4.2.2 "project" "bachelor" 2 "EUR" (by decide)⟩⟩

end StudentServices

namespace StudentServices

/-! ## Claim C5 -/

/-- Claim C5, on the failing input: the order created from the quote for a
bachelor assignment due in one day stores total 48 but academic multiplier 1
(the column default — the bot omits that keyword at construction), so the
stored snapshot violates total equals base times academic times urgency
(20 times 1 times 2 is 40, not 48). -/
theorem claim_C5 :
    pendingOrder.total_amount = 48 ∧
    pendingOrder.base_price = 20 ∧
    pendingOrder.academic_multiplier = 1 ∧
    pendingOrder.urgency_multiplier = 2 ∧
    pendingOrder.base_price * pendingOrder.academic_multiplier *
      pendingOrder.urgency_multiplier = 40 ∧
    pendingOrder.total_amount ≠ pendingOrder.base_price *
      pendingOrder.academic_multiplier * pendingOrder.urgency_multiplier := by
  refine ⟨?_, ?_, ?_, ?_, ?_, ?_⟩ <;>
    · simp [pendingOrder, createOrder, calculate_price, basePriceOf,
        academicMultiplierOf, currencyRateOf, lookupD, basePrices,
        academicMultipliers, currencyRates, urgencyMultiplier, round2]
      try norm_num

/-! ## Claim C6 -/

/-- Claim C6: in every reachable state, a paid payment status implies an
associated succeeded payment record. It holds because no operation of the
repository ever establishes the paid payment status (creation writes pending,
the admin endpoint only writes the lifecycle status, and the payment check
always raises before committing). -/
theorem claim_C6 :
    ∀ s : SysState, Reachable s → paidImpliesSucceededPayment s := by
  intro s h
  induction h with
  | init n st al pricing c =>
    intro hp
    exact absurd hp (by decide : ¬ "pending" = "paid")
  | step s1 s2 hr hstep ih =>
    cases hstep with
    | apiUpdate v o' h =>
      intro hp
      obtain ⟨ho', _⟩ := update_order_status_ok h
      subst ho'
      exact ih hp
    | apiUpdateFail v e h =>
      exact ih
    | checkPayment g =>
      intro hp
      rw [check_payment_snd] at hp
      exact ih hp

/-- Witness for claim C6: the freshly created order state is reachable and
satisfies the invariant. -/
theorem claim_C6_witness :
    Reachable ⟨pendingOrder, []⟩ ∧
    paidImpliesSucceededPayment ⟨pendingOrder, []⟩ :=
  ⟨Reachable.init "SS202401010001" "assignment" "bachelor"
      (calculate_price "assignment" "bachelor" 1 "USD") "USD",
   claim_C6 ⟨pendingOrder, []⟩
     (Reachable.init "SS202401010001" "assignment" "bachelor"
       (calculate_price "assignment" "bachelor" 1 "USD") "USD")⟩

/-! ## Claim C7 -/

/-- Claim C7: the urgency multiplier is the step function with boundaries
inclusive on the lower day count — one day gives 2.0, two days 1.5, three days
1.3, four and five days 1.1, and six or more days 1.0. -/
theorem claim_C7 :
    urgencyMultiplier 1 = 2 ∧ urgencyMultiplier 2 = 3/2 ∧
    urgencyMultiplier 3 = 13/10 ∧ urgencyMultiplier 4 = 11/10 ∧
    urgencyMultiplier 5 = 11/10 ∧ ∀ d : ℤ, 6 ≤ d → urgencyMultiplier d = 1 := by
  refine ⟨by norm_num [urgencyMultiplier], by norm_num [urgencyMultiplier],
    by norm_num [urgencyMultiplier], by norm_num [urgencyMultiplier],
    by norm_num [urgencyMultiplier], ?_⟩
  intro d hd
  unfold urgencyMultiplier
  rw [if_neg (by omega), if_neg (by omega), if_neg (by omega),
    if_neg (by omega)]

/-- Witness for claim C7: seven days is at least six and gets multiplier 1. -/
theorem claim_C7_witness : (6:ℤ) ≤ 7 ∧ urgencyMultiplier 7 = 1 :=
  ⟨by decide, claim_C7.2.2.2.2.2 7 (by decide)⟩

/-! ## Claim C8 -/

/-- Claim C8: on a paid gateway session, `check_payment_status_by_order`
assigns the out-of-set values confirmed (payment status) and paid (lifecycle
status), the validator raises, the exception branch returns the error string,
and the stored order is unchanged for every order. -/
theorem claim_C8 :
    "confirmed" ∉ validPaymentStatuses ∧ "paid" ∉ validOrderStatuses ∧
    ∀ o : Order, check_payment_status_by_order o "paid" = ("error", o) := by
  refine ⟨by decide, by decide, ?_⟩
  intro o
  simp [check_payment_status_by_order, setPaymentStatus,
    validate_payment_status, validPaymentStatuses]

/-- Witness for claim C8: the payment check on the concrete pending order
with a paid session returns the error string and leaves it unchanged. -/
theorem claim_C8_witness :
    check_payment_status_by_order pendingOrder "paid" =
      ("error", pendingOrder) :=
  claim_C8.2.2 pendingOrder

/-! ## Claim C9 -/

/-- Claim C9: a write of the lifecycle status or payment status goes through
iff the value lies in the closed valid set (otherwise the validator raises and
the order is unchanged), and consequently every reachable order state carries
a status pair drawn from the two valid sets. -/
theorem claim_C9 :
    (∀ (o : Order) (v : String), v ∈ validOrderStatuses →
      setStatus o v = .ok { o with status := v }) ∧
    (∀ (o : Order) (v : String), v ∉ validOrderStatuses →
      setStatus o v = .error "Invalid status") ∧
    (∀ (o : Order) (v : String), v ∈ validPaymentStatuses →
      setPaymentStatus o v = .ok { o with payment_status := v }) ∧
    (∀ (o : Order) (v : String), v ∉ validPaymentStatuses →
      setPaymentStatus o v = .error "Invalid payment status") ∧
    (∀ s : SysState, Reachable s → statusPairValid s) := by
  refine ⟨?_, ?_, ?_, ?_, ?_⟩
  · intro o v hv; simp [setStatus, validate_status, if_pos hv]
  · intro o v hv; simp [setStatus, validate_status, if_neg hv]
  · intro o v hv; simp [setPaymentStatus, validate_payment_status, if_pos hv]
  · intro o v hv; simp [setPaymentStatus, validate_payment_status, if_neg hv]
  · intro s h
    induction h with
    | init n st al pricing c =>
      exact ⟨(by decide : "pending" ∈ validOrderStatuses),
        (by decide : "pending" ∈ validPaymentStatuses)⟩
    | step s1 s2 hr hstep ih =>
      cases hstep with
      | apiUpdate v o' h =>
        obtain ⟨ho', hv⟩ := update_order_status_ok h
        subst ho'
        exact ⟨hv, ih.2⟩
      | apiUpdateFail v e h => exact ih
      | checkPayment g =>
        refine ⟨?_, ?_⟩ <;> simp only [statusPairValid] <;>
          rw [check_payment_snd]
        · exact ih.1
        · exact ih.2

/-- Witness for claim C9: concrete valid and invalid writes of both fields,
and the validity of the status pair of a concrete reachable state. -/
theorem claim_C9_witness :
    ("delivered" ∈ validOrderStatuses ∧
      setStatus pendingOrder "delivered" =
        .ok { pendingOrder with status := "delivered" }) ∧
    ("archived" ∉ validOrderStatuses ∧
      setStatus pendingOrder "archived" = .error "Invalid status") ∧
    ("refunded" ∈ validPaymentStatuses ∧
      setPaymentStatus pendingOrder "refunded" =
        .ok { pendingOrder with payment_status := "refunded" }) ∧
    ("confirmed" ∉ validPaymentStatuses ∧
      setPaymentStatus pendingOrder "confirmed" =
        .error "Invalid payment status") ∧
    (Reachable ⟨pendingOrder, []⟩ ∧ statusPairValid ⟨pendingOrder, []⟩) :=
  ⟨⟨by decide, claim_C9.1 pendingOrder "delivered" (by decide)⟩,
   ⟨by decide, claim_C9.2.1 pendingOrder "archived" (by decide)⟩,
   ⟨by decide, claim_C9.2.2.1 pendingOrder "refunded" (by decide)⟩,
   ⟨by decide, claim_C9.2.2.2.1 pendingOrder "confirmed" (by decide)⟩,
   ⟨Reachable.init "SS202401010001" "assignment" "bachelor"
       (calculate_price "assignment" "bachelor" 1 "USD") "USD",
    claim_C9.2.2.2.2 ⟨pendingOrder, []⟩
      (Reachable.init "SS202401010001" "assignment" "bachelor"
        (calculate_price "assignment" "bachelor" 1 "USD") "USD")⟩⟩

/-! ## Claim C10 -/

/-- Claim C10, on the failing interleaving: two creation sessions on the same
day that both read the row count (5) before either commits compute the same
order number, while the sequential interleaving from the same start yields
distinct numbers — the count-plus-one allocation races. -/
theorem claim_C10 :
    (runAlloc "20240101" racingSchedule ⟨5, none, none⟩).numA =
      some "SS202401010006" ∧
    (runAlloc "20240101" racingSchedule ⟨5, none, none⟩).numB =
      some "SS202401010006" ∧
    (runAlloc "20240101" racingSchedule ⟨5, none, none⟩).numA =
      (runAlloc "20240101" racingSchedule ⟨5, none, none⟩).numB ∧
    (runAlloc "20240101" sequentialSchedule ⟨5, none, none⟩).numA =
      some "SS202401010006" ∧
    (runAlloc "20240101" sequentialSchedule ⟨5, none, none⟩).numB =
      some "SS202401010007" :=
  ⟨rfl, rfl, rfl, rfl, rfl⟩

end StudentServices
